import Mathlib

/-!
Shallow embedding of the MealMind health-tracking application core
(src/utils.py, src/meal_recommender.py, src/nutrition_api.py) together with
theorems settling the behavioural claims about it.

Modelling conventions:
* Python float and int arithmetic is modelled over ℚ (the computations at stake
  are sums, products and divisions of small decimal literals, where IEEE-754
  rounding does not change any of the compared outcomes); catalog fields that
  are integer literals in the source are modelled as ℤ.
* Python ZeroDivisionError, and the try/except blocks that swallow it, are
  modelled by Option: a division returns none when the divisor is 0, and the
  caller that catches the exception maps none to its fallback result.
* Python str values are Lean Strings; the handful of str methods used by the
  code (lower, strip, startswith, split, the in operator, int()) are
  re-implemented below on the underlying character lists so that they are
  executable by the kernel.  All strings appearing in this code base are ASCII.
-/

set_option maxHeartbeats 1600000

/-! ### Python-semantics string and number helpers -/

/-- Python str.lower() on ASCII data. -/
def pyLower (s : String) : String := ⟨s.data.map Char.toLower⟩

/-- Occurrence test on character lists: true iff pat occurs contiguously in the list. -/
def listContains (pat : List Char) : List Char → Bool
  | [] => pat.isEmpty
  | c :: rest => pat.isPrefixOf (c :: rest) || listContains pat rest

/-- Python substring operator: pat in s. -/
def pyContains (s pat : String) : Bool := listContains pat.data s.data

/-- Python s.startswith(pat). -/
def pyStartsWith (s pat : String) : Bool := pat.data.isPrefixOf s.data

/-- Python s.strip(): remove leading and trailing whitespace. -/
def pyStrip (s : String) : String :=
  ⟨((s.data.dropWhile Char.isWhitespace).reverse.dropWhile Char.isWhitespace).reverse⟩

/-- Python float division: raises ZeroDivisionError on divisor 0, modelled as none. -/
def pydiv (a b : ℚ) : Option ℚ := if b = 0 then none else some (a / b)

/-- Python round-half-to-even to an integer, the tie rule of round() on exact halves. -/
def roundHE (q : ℚ) : ℤ :=
  if q - ⌊q⌋ < 1/2 then ⌊q⌋
  else if 1/2 < q - ⌊q⌋ then ⌊q⌋ + 1
  else if ⌊q⌋ % 2 = 0 then ⌊q⌋ else ⌊q⌋ + 1

/-- Python round(x, 1), modelled exactly over ℚ. -/
def round1 (q : ℚ) : ℚ := (roundHE (q * 10) : ℚ) / 10

/-- Numeric value of a digit list (most significant first). -/
def digitsVal (cs : List Char) : ℕ := cs.foldl (fun a c => a * 10 + (c.toNat - 48)) 0

/-- Python int(s) on ASCII decimal notation: optional surrounding whitespace, an
optional sign, then at least one digit; anything else raises ValueError, modelled
as none. -/
def pyParseInt (s : String) : Option ℤ :=
  match (pyStrip s).data with
  | '-' :: rest =>
      if !rest.isEmpty && rest.all Char.isDigit then some (-(digitsVal rest : ℤ)) else none
  | '+' :: rest =>
      if !rest.isEmpty && rest.all Char.isDigit then some (digitsVal rest : ℤ) else none
  | cs =>
      if !cs.isEmpty && cs.all Char.isDigit then some (digitsVal cs : ℤ) else none

/-- Python dict.get(key, default) for a dict written as a literal key/value list. -/
def dictGet {α β : Type} [DecidableEq α] (table : List (α × β)) (key : α) (default : β) : β :=
  match table with
  | [] => default
  | (k, v) :: rest => if k = key then v else dictGet rest key default

/-! ### src/utils.py : metabolic calculator -/

/-- Embedding of utils.calculate_bmr (src/utils.py lines 7-14), the Mifflin-St Jeor
equation; the gender string is lower-cased and compared against "male", any other
value takes the female branch. -/
def calculate_bmr (weight height age : ℚ) (gender : String) : ℚ :=
  if pyLower gender = "male" then 10 * weight + 6.25 * height - 5 * age + 5
  else 10 * weight + 6.25 * height - 5 * age - 161

/-- Activity multiplier table of utils.calculate_daily_calories (src/utils.py 18-24). -/
def activity_multipliers : List (String × ℚ) :=
  [("Sedentary (little/no exercise)", 1.2),
   ("Lightly active (light exercise 1-3 days/week)", 1.375),
   ("Moderately active (moderate exercise 3-5 days/week)", 1.55),
   ("Very active (hard exercise 6-7 days/week)", 1.725),
   ("Extremely active (very hard exercise, physical job)", 1.9)]

/-- Embedding of utils.calculate_daily_calories (src/utils.py 16-27):
multiplier looked up with dict.get(activity_level, 1.2). -/
def calculate_daily_calories (bmr : ℚ) (activity_level : String) : ℚ :=
  bmr * dictGet activity_multipliers activity_level 1.2

/-- Result record of utils.calculate_macro_percentages. -/
structure MacroPercentages where
  protein : ℚ
  carbs : ℚ
  fat : ℚ
deriving DecidableEq

/-- Embedding of utils.calculate_macro_percentages (src/utils.py 29-44). -/
def calculate_macro_percentages (protein carbs fat : ℚ) : MacroPercentages :=
  let protein_calories := protein * 4
  let carb_calories := carbs * 4
  let fat_calories := fat * 9
  let total_calories := protein_calories + carb_calories + fat_calories
  if total_calories = 0 then ⟨0, 0, 0⟩
  else ⟨round1 (protein_calories / total_calories * 100),
        round1 (carb_calories / total_calories * 100),
        round1 (fat_calories / total_calories * 100)⟩

/-! ### src/utils.py : CSV export -/

/-- A meal row as returned by db_manager.get_progress_data, carrying the
already-stringified field values that csv.writer renders with str(). -/
structure MealRow where
  date : String
  time : String
  meal_name : String
  meal_type : String
  calories : String
  protein : String
  carbs : String
  fat : String
deriving DecidableEq

/-- A water row as returned by db_manager.get_water_logs. -/
structure WaterRow where
  date : String
  amount : String
deriving DecidableEq

/-- A mood row as returned by db_manager.get_mood_logs. -/
structure MoodRow where
  date : String
  rating : String
  notes : String
deriving DecidableEq

/-- Field quoting of the csv.writer default dialect (QUOTE_MINIMAL, quote char
doubled inside quoted fields). -/
def csvField (f : String) : String :=
  if f.data.any (fun c => c = ',' || c = '"' || c = '\r' || c = '\n')
  then "\"" ++ (⟨f.data.flatMap (fun c => if c = '"' then ['"', '"'] else [c])⟩ : String) ++ "\""
  else f

/-- Comma-join of rendered fields. -/
def joinComma : List String → String
  | [] => ""
  | [f] => f
  | f :: rest => f ++ "," ++ joinComma rest

/-- One writer.writerow call: comma-separated quoted fields plus the CRLF
terminator of the csv default dialect. -/
def csvRow (fields : List String) : String := joinComma (fields.map csvField) ++ "\r\n"

/-- Header row written for meal-log sections (src/utils.py 146 and 173). -/
def mealLogHeader : List String :=
  ["Date", "Time", "Meal Name", "Meal Type", "Calories", "Protein (g)", "Carbs (g)", "Fat (g)"]

/-- Rendering of one meal row (src/utils.py 148-151 and 175-178). -/
def mealRowLine (m : MealRow) : String :=
  csvRow [m.date, m.time, m.meal_name, m.meal_type, m.calories, m.protein, m.carbs, m.fat]

/-- Return discipline of src/utils.py line 195: the generated text when its
strip() is truthy, otherwise None. -/
def stripOrNone (content : String) : Option String :=
  if (pyStrip content).data.isEmpty then none else some content

/-- Embedding of utils.export_progress_to_csv (src/utils.py 130-199).  The
db_manager collaborator is replaced by the three row lists its range queries
return for (start_date, end_date), and datetime.now().strftime(...) by the now
argument.  The final line returns the text when its strip() is non-empty and
None (here none) otherwise; the except branch of the source can only fire on
collaborator failures, which the pure model has no counterpart of. -/
def export_progress_to_csv (now start_date end_date : String) (export_type : String)
    (meal_data : List MealRow) (water_data : List WaterRow) (mood_data : List MoodRow) :
    Option String :=
  stripOrNone (
    if export_type = "All Data" then
      csvRow ["Export Date", now] ++
      csvRow ["Data Period", start_date ++ " to " ++ end_date] ++
      csvRow [] ++
      (if meal_data.isEmpty then "" else
        csvRow ["=== MEAL LOGS ==="] ++ csvRow mealLogHeader ++
        String.join (meal_data.map mealRowLine) ++ csvRow []) ++
      (if water_data.isEmpty then "" else
        csvRow ["=== WATER INTAKE LOGS ==="] ++ csvRow ["Date/Time", "Amount (ml)"] ++
        String.join (water_data.map (fun w => csvRow [w.date, w.amount])) ++ csvRow []) ++
      (if mood_data.isEmpty then "" else
        csvRow ["=== MOOD LOGS ==="] ++ csvRow ["Date/Time", "Rating (1-10)", "Notes"] ++
        String.join (mood_data.map (fun m => csvRow [m.date, m.rating, m.notes])))
    else if export_type = "Meal Logs Only" then
      csvRow mealLogHeader ++ String.join (meal_data.map mealRowLine)
    else if export_type = "Water Intake Only" then
      csvRow ["Date/Time", "Amount (ml)"] ++
      String.join (water_data.map (fun w => csvRow [w.date, w.amount]))
    else if export_type = "Mood Logs Only" then
      csvRow ["Date/Time", "Rating (1-10)", "Notes"] ++
      String.join (mood_data.map (fun m => csvRow [m.date, m.rating, m.notes]))
    else "")

/-! ### src/utils.py : meal timing insights -/

/-- A meal-log record as the analytics functions read it back from the database;
the dict .get defaults of the source are modelled by every field being present. -/
structure MealLog where
  meal_name : String
  meal_type : String
  calories : ℚ
  protein : ℚ
  carbs : ℚ
  fat : ℚ
  date : String
  time : String
deriving DecidableEq

/-- Python time_str.split(\x27:\x27)[0]: the prefix before the first colon. -/
def hourDigits (time_str : String) : String := ⟨time_str.data.takeWhile (fun c => c ≠ ':')⟩

/-- The grouping loop of utils.get_meal_timing_insights (src/utils.py 238-250):
each entry goes to the morning, afternoon or evening list by parsed hour;
entries whose hour fails int() parsing are skipped. -/
def bucketMeals : List MealLog → List MealLog × List MealLog × List MealLog
  | [] => ([], [], [])
  | meal :: rest =>
    let b := bucketMeals rest
    match pyParseInt (hourDigits meal.time) with
    | none => b
    | some hour =>
      if 5 ≤ hour ∧ hour < 12 then (meal :: b.1, b.2.1, b.2.2)
      else if 12 ≤ hour ∧ hour < 17 then (b.1, meal :: b.2.1, b.2.2)
      else (b.1, b.2.1, meal :: b.2.2)

/-- Spec-side characterization: entry has a parseable hour in [5,12). -/
def inMorning (l : MealLog) : Bool :=
  match pyParseInt (hourDigits l.time) with
  | some hour => decide (5 ≤ hour ∧ hour < 12)
  | none => false

/-- Spec-side characterization: entry has a parseable hour in [12,17). -/
def inAfternoon (l : MealLog) : Bool :=
  match pyParseInt (hourDigits l.time) with
  | some hour => decide (12 ≤ hour ∧ hour < 17)
  | none => false

/-- Spec-side characterization: entry has a parseable hour outside [5,17). -/
def inEvening (l : MealLog) : Bool :=
  match pyParseInt (hourDigits l.time) with
  | some hour => decide (¬ (5 ≤ hour ∧ hour < 12) ∧ ¬ (12 ≤ hour ∧ hour < 17))
  | none => false

/-- Late-meal test of src/utils.py 265-266: raw time string starts with 21:, 22: or 23:. -/
def latePred (meal : MealLog) : Bool :=
  pyStartsWith meal.time "21:" || pyStartsWith meal.time "22:" || pyStartsWith meal.time "23:"

/-- Insight string of src/utils.py line 231. -/
def noTimingDataMsg : String := "No meal timing data available for analysis."

/-- Insight string of src/utils.py line 256. -/
def skipMorningMsg : String :=
  "You tend to skip morning meals. Consider having a healthy breakfast to boost energy."

/-- Insight string of src/utils.py line 259. -/
def eveningHeavyMsg : String :=
  "Most of your meals are in the evening. Try distributing meals more evenly throughout the day."

/-- Insight string of src/utils.py line 262. -/
def middayMsg : String := "Great job having substantial midday nutrition!"

/-- Insight string of src/utils.py line 269. -/
def lateMealsMsg : String :=
  "You eat late quite often. Try to have your last meal 2-3 hours before bedtime."

/-- Insight string of src/utils.py line 272. -/
def balancedTimingMsg : String := "Your meal timing patterns look balanced!"

/-- Embedding of utils.get_meal_timing_insights (src/utils.py 226-274).  The
fraction comparisons are float divisions in the source, modelled exactly on ℚ. -/
def get_meal_timing_insights (meal_logs : List MealLog) : List String :=
  if meal_logs.isEmpty then [noTimingDataMsg]
  else
    let b := bucketMeals meal_logs
    let total_meals : ℚ := meal_logs.length
    let insights :=
      (if (b.1.length : ℚ) / total_meals < 0.2 then [skipMorningMsg] else []) ++
      (if (b.2.2.length : ℚ) / total_meals > 0.5 then [eveningHeavyMsg] else []) ++
      (if (b.2.1.length : ℚ) / total_meals > 0.6 then [middayMsg] else []) ++
      (if (meal_logs.countP latePred : ℚ) > total_meals * 0.3 then [lateMealsMsg] else [])
    if insights.isEmpty then [balancedTimingMsg] else insights

/-! ### src/meal_recommender.py : the static catalog -/

/-- A MealCatalogEntry of MealRecommender.meals_database; the numeric fields are
integer literals in the source and are modelled as ℤ. -/
structure Meal where
  name : String
  description : String
  ingredients : List String
  calories : ℤ
  protein : ℤ
  carbs : ℤ
  fat : ℤ
  preparation_time : ℤ
  dietary_tags : List String
  health_benefits : List String
deriving DecidableEq

/-- Catalog entry, src/meal_recommender.py 12-23. -/
def greekYogurtParfait : Meal :=
  { name := "Greek Yogurt Parfait",
    description := "Greek yogurt layered with berries and granola",
    ingredients := ["Greek yogurt", "mixed berries", "granola", "honey"],
    calories := 280, protein := 18, carbs := 35, fat := 8, preparation_time := 5,
    dietary_tags := ["vegetarian", "gluten-free"],
    health_benefits := ["probiotics", "antioxidants", "fiber"] }

/-- Catalog entry, src/meal_recommender.py 24-35. -/
def avocadoToast : Meal :=
  { name := "Avocado Toast",
    description := "Whole grain toast topped with mashed avocado and seasonings",
    ingredients := ["whole grain bread", "avocado", "lime juice", "salt", "pepper"],
    calories := 320, protein := 8, carbs := 25, fat := 22, preparation_time := 8,
    dietary_tags := ["vegan", "vegetarian"],
    health_benefits := ["healthy fats", "fiber", "potassium"] }

/-- Catalog entry, src/meal_recommender.py 36-47. -/
def proteinSmoothie : Meal :=
  { name := "Protein Smoothie",
    description := "Blended smoothie with protein powder, fruits, and spinach",
    ingredients := ["protein powder", "banana", "spinach", "almond milk", "berries"],
    calories := 250, protein := 25, carbs := 20, fat := 5, preparation_time := 5,
    dietary_tags := ["dairy-free", "vegetarian"],
    health_benefits := ["high protein", "vitamins", "antioxidants"] }

/-- Catalog entry, src/meal_recommender.py 48-59. -/
def oatmealBowl : Meal :=
  { name := "Oatmeal Bowl",
    description := "Steel-cut oats with fruits, nuts, and cinnamon",
    ingredients := ["steel-cut oats", "banana", "walnuts", "cinnamon", "maple syrup"],
    calories := 350, protein := 12, carbs := 45, fat := 14, preparation_time := 15,
    dietary_tags := ["vegan", "vegetarian", "gluten-free"],
    health_benefits := ["fiber", "complex carbs", "omega-3"] }

/-- Catalog entry, src/meal_recommender.py 62-73. -/
def quinoaBuddhaBowl : Meal :=
  { name := "Quinoa Buddha Bowl",
    description := "Colorful bowl with quinoa, roasted vegetables, and tahini dressing",
    ingredients := ["quinoa", "sweet potato", "chickpeas", "kale", "tahini", "lemon"],
    calories := 420, protein := 16, carbs := 55, fat := 16, preparation_time := 25,
    dietary_tags := ["vegan", "vegetarian", "gluten-free"],
    health_benefits := ["complete protein", "fiber", "antioxidants"] }

/-- Catalog entry, src/meal_recommender.py 74-85. -/
def grilledChickenSalad : Meal :=
  { name := "Grilled Chicken Salad",
    description := "Mixed greens with grilled chicken, vegetables, and vinaigrette",
    ingredients := ["chicken breast", "mixed greens", "cherry tomatoes", "cucumber", "olive oil"],
    calories := 380, protein := 35, carbs := 12, fat := 22, preparation_time := 20,
    dietary_tags := ["gluten-free", "dairy-free"],
    health_benefits := ["lean protein", "vitamins", "healthy fats"] }

/-- Catalog entry, src/meal_recommender.py 86-97. -/
def vegetableStirFry : Meal :=
  { name := "Vegetable Stir-fry",
    description := "Mixed vegetables stir-fried with tofu and brown rice",
    ingredients := ["tofu", "broccoli", "bell peppers", "brown rice", "soy sauce", "ginger"],
    calories := 340, protein := 18, carbs := 42, fat := 12, preparation_time := 18,
    dietary_tags := ["vegan", "vegetarian"],
    health_benefits := ["plant protein", "fiber", "vitamins"] }

/-- Catalog entry, src/meal_recommender.py 98-109. -/
def turkeyWrap : Meal :=
  { name := "Turkey Wrap",
    description := "Whole wheat wrap with turkey, vegetables, and hummus",
    ingredients := ["turkey breast", "whole wheat tortilla", "hummus", "lettuce", "tomatoes"],
    calories := 390, protein := 28, carbs := 35, fat := 15, preparation_time := 10,
    dietary_tags := ["dairy-free"],
    health_benefits := ["lean protein", "fiber", "B vitamins"] }

/-- Catalog entry, src/meal_recommender.py 112-123. -/
def bakedSalmon : Meal :=
  { name := "Baked Salmon",
    description := "Herb-crusted salmon with roasted vegetables and quinoa",
    ingredients := ["salmon fillet", "asparagus", "quinoa", "herbs", "lemon", "olive oil"],
    calories := 450, protein := 35, carbs := 28, fat := 22, preparation_time := 30,
    dietary_tags := ["gluten-free", "dairy-free"],
    health_benefits := ["omega-3", "complete protein", "vitamins"] }

/-- Catalog entry, src/meal_recommender.py 124-135. -/
def vegetarianChili : Meal :=
  { name := "Vegetarian Chili",
    description := "Hearty chili with beans, vegetables, and spices",
    ingredients := ["black beans", "kidney beans", "tomatoes", "onions", "bell peppers", "spices"],
    calories := 320, protein := 18, carbs := 52, fat := 4, preparation_time := 35,
    dietary_tags := ["vegan", "vegetarian", "gluten-free"],
    health_benefits := ["fiber", "plant protein", "antioxidants"] }

/-- Catalog entry, src/meal_recommender.py 136-147. -/
def leanBeefStirFry : Meal :=
  { name := "Lean Beef Stir-fry",
    description := "Lean beef strips with vegetables over brown rice",
    ingredients := ["lean beef", "broccoli", "snap peas", "brown rice", "garlic", "soy sauce"],
    calories := 410, protein := 30, carbs := 38, fat := 14, preparation_time := 22,
    dietary_tags := ["dairy-free"],
    health_benefits := ["iron", "protein", "B vitamins"] }

/-- Catalog entry, src/meal_recommender.py 148-159. -/
def stuffedBellPeppers : Meal :=
  { name := "Stuffed Bell Peppers",
    description := "Bell peppers stuffed with turkey, rice, and vegetables",
    ingredients := ["ground turkey", "bell peppers", "brown rice", "onions", "tomatoes"],
    calories := 380, protein := 26, carbs := 32, fat := 16, preparation_time := 40,
    dietary_tags := ["gluten-free", "dairy-free"],
    health_benefits := ["lean protein", "vitamins", "fiber"] }

/-- Catalog entry, src/meal_recommender.py 162-173. -/
def appleAlmondButter : Meal :=
  { name := "Apple with Almond Butter",
    description := "Sliced apple with natural almond butter",
    ingredients := ["apple", "almond butter"],
    calories := 190, protein := 6, carbs := 20, fat := 11, preparation_time := 2,
    dietary_tags := ["vegan", "vegetarian", "gluten-free"],
    health_benefits := ["fiber", "healthy fats", "vitamin C"] }

/-- Catalog entry, src/meal_recommender.py 174-185. -/
def proteinEnergyBalls : Meal :=
  { name := "Protein Energy Balls",
    description := "No-bake energy balls with oats, dates, and protein powder",
    ingredients := ["rolled oats", "dates", "protein powder", "chia seeds", "coconut"],
    calories := 150, protein := 8, carbs := 18, fat := 5, preparation_time := 10,
    dietary_tags := ["vegetarian", "gluten-free"],
    health_benefits := ["protein", "fiber", "natural sugars"] }

/-- Catalog entry, src/meal_recommender.py 186-197. -/
def mixedNuts : Meal :=
  { name := "Mixed Nuts",
    description := "Portion-controlled mix of raw almonds, walnuts, and cashews",
    ingredients := ["almonds", "walnuts", "cashews"],
    calories := 160, protein := 6, carbs := 6, fat := 14, preparation_time := 1,
    dietary_tags := ["vegan", "vegetarian", "gluten-free", "keto"],
    health_benefits := ["healthy fats", "protein", "vitamin E"] }

/-- Catalog entry, src/meal_recommender.py 198-209. -/
def veggieHummusPlate : Meal :=
  { name := "Veggie Hummus Plate",
    description := "Fresh vegetables with homemade hummus",
    ingredients := ["carrots", "cucumbers", "bell peppers", "hummus"],
    calories := 140, protein := 6, carbs := 16, fat := 6, preparation_time := 5,
    dietary_tags := ["vegan", "vegetarian", "gluten-free"],
    health_benefits := ["fiber", "vitamins", "plant protein"] }

/-- MealRecommender.meals_database (src/meal_recommender.py 10-211), a dict from
meal type to entry list, in source insertion order. -/
def meals_database : List (String × List Meal) :=
  [("Breakfast", [greekYogurtParfait, avocadoToast, proteinSmoothie, oatmealBowl]),
   ("Lunch", [quinoaBuddhaBowl, grilledChickenSalad, vegetableStirFry, turkeyWrap]),
   ("Dinner", [bakedSalmon, vegetarianChili, leanBeefStirFry, stuffedBellPeppers]),
   ("Snack", [appleAlmondButter, proteinEnergyBalls, mixedNuts, veggieHummusPlate])]

/-! ### src/meal_recommender.py : recommendation pipeline -/

/-- The user profile dict saved by the presentation layer (src/app.py 182-193)
and consumed by MealRecommender.get_recommendations. -/
structure UserProfile where
  name : String
  age : ℚ
  weight : ℚ
  height : ℚ
  gender : String
  activity_level : String
  goal : String
  dietary_restrictions : List String
  allergies : String
  bmr : ℚ
  daily_calories : ℚ

/-- Profiles the application can actually save: the profile form bounds its
inputs (age 18-120, weight 30-300 kg, height 100-250 cm, src/app.py 145-147)
and stores the derived bmr and daily_calories of the data model invariant. -/
def ValidProfile (p : UserProfile) : Prop :=
  18 ≤ p.age ∧ p.age ≤ 120 ∧ 30 ≤ p.weight ∧ p.weight ≤ 300 ∧
  100 ≤ p.height ∧ p.height ≤ 250 ∧
  p.bmr = calculate_bmr p.weight p.height p.age p.gender ∧
  p.daily_calories = calculate_daily_calories p.bmr p.activity_level

/-- Embedding of MealRecommender._filter_by_dietary_restrictions
(src/meal_recommender.py 243-264): keep meals whose lower-cased tags contain
every lower-cased restriction; an empty restriction list keeps everything. -/
def filter_by_dietary_restrictions (meals : List Meal) (restrictions : List String) : List Meal :=
  if restrictions.isEmpty then meals
  else meals.filter (fun meal =>
    restrictions.all (fun restriction =>
      (meal.dietary_tags.map pyLower).contains (pyLower restriction)))

/-- Per-meal calorie target of _score_meals (src/meal_recommender.py 272-279):
dict of fractions of daily calories, read with dict.get(meal_type, daily*0.25). -/
def mealCalorieTarget (daily_calories : ℚ) (meal_type : String) : ℚ :=
  dictGet
    [("Breakfast", daily_calories * 0.25), ("Lunch", daily_calories * 0.35),
     ("Dinner", daily_calories * 0.35), ("Snack", daily_calories * 0.05)]
    meal_type (daily_calories * 0.25)

/-- Goal-based scoring term of _score_meals (src/meal_recommender.py 290-308);
the maintain branch divides protein calories by meal calories, which would raise
ZeroDivisionError on a zero-calorie meal. -/
def goalScore (goal : String) (target_calories : ℚ) (meal : Meal) : Option ℚ :=
  if pyContains goal "lose weight" then
    some ((if (meal.calories : ℚ) < target_calories then 20 else 0) +
          (if 15 < (meal.protein : ℚ) then 15 else 0))
  else if pyContains goal "gain weight" || pyContains goal "build muscle" then
    some ((if target_calories * 0.9 < (meal.calories : ℚ) then 20 else 0) +
          (if 20 < (meal.protein : ℚ) then 20 else 0))
  else if pyContains goal "maintain" then
    (pydiv ((meal.protein : ℚ) * 4) (meal.calories : ℚ)).map
      (fun pr => if 0.15 ≤ pr ∧ pr ≤ 0.35 then 15 else 0)
  else some 0

/-- Preparation-time term of _score_meals (src/meal_recommender.py 314-319). -/
def prepTimeScore (meal : Meal) : ℚ :=
  if meal.preparation_time ≤ 10 then 10 else if meal.preparation_time ≤ 20 then 5 else 0

/-- Macro-balance term of _score_meals (src/meal_recommender.py 324-333); the
source also computes a carb ratio that its condition never uses. -/
def macroBalanceScore (meal : Meal) : ℚ :=
  let total_macros : ℚ := (meal.protein : ℚ) + (meal.carbs : ℚ) + (meal.fat : ℚ)
  if 0 < total_macros then
    if (0.15 ≤ (meal.protein : ℚ) / total_macros ∧ (meal.protein : ℚ) / total_macros ≤ 0.4) ∧
       (0.2 ≤ (meal.fat : ℚ) / total_macros ∧ (meal.fat : ℚ) / total_macros ≤ 0.4)
    then 10 else 0
  else 0

/-- Score of one meal in _score_meals (src/meal_recommender.py 281-336):
calorie-alignment term, goal term, two points per health benefit, prep-time
term, the random.randint(0,15) variety draw (passed in as rand_draw), and the
macro-balance term.  none models a ZeroDivisionError escaping the loop. -/
def score_meal (goal : String) (target_calories : ℚ) (rand_draw : ℕ) (meal : Meal) : Option ℚ :=
  (pydiv (|(meal.calories : ℚ) - target_calories|) target_calories).bind (fun rel =>
    (goalScore goal target_calories meal).map (fun gs =>
      max 0 (100 - rel * 100) * 0.3 + gs + (meal.health_benefits.length : ℚ) * 2 +
        prepTimeScore meal + (rand_draw : ℚ) + macroBalanceScore meal))

/-- A meal copy annotated with its ai_score, as _score_meals builds them. -/
structure ScoredMeal where
  meal : Meal
  ai_score : ℚ

/-- Embedding of MealRecommender._score_meals (src/meal_recommender.py 266-338):
score every candidate in order, drawing the i-th random variety bonus from the
rng stream; a ZeroDivisionError anywhere aborts the whole computation (none). -/
def score_meals (goal : String) (target_calories : ℚ) (rng : ℕ → ℕ) :
    List Meal → ℕ → Option (List ScoredMeal)
  | [], _ => some []
  | meal :: rest, i =>
    (score_meal goal target_calories (rng i) meal).bind (fun s =>
      (score_meals goal target_calories rng rest (i + 1)).map (fun tail => ⟨meal, s⟩ :: tail))

/-- Embedding of MealRecommender.get_recommendations (src/meal_recommender.py
213-241): select the partition, filter by restrictions with fallback to the
unfiltered partition, score, sort stably by descending ai_score (Python
list.sort with reverse=True), take the top num_recommendations; the except
branch turns an escaped ZeroDivisionError into an empty list.  The locals
available_meals, filtered_meals, candidates and target of the source are
inlined here. -/
def get_recommendations (profile : UserProfile) (meal_type : String)
    (num_recommendations : ℕ) (rng : ℕ → ℕ) : List ScoredMeal :=
  if (dictGet meals_database meal_type []).isEmpty then []
  else
    match score_meals (pyLower profile.goal)
        (mealCalorieTarget profile.daily_calories meal_type) rng
        (if (filter_by_dietary_restrictions (dictGet meals_database meal_type [])
               profile.dietary_restrictions).isEmpty
         then dictGet meals_database meal_type []
         else filter_by_dietary_restrictions (dictGet meals_database meal_type [])
               profile.dietary_restrictions) 0 with
    | none => []
    | some scored =>
      (scored.insertionSort (fun a b => b.ai_score ≤ a.ai_score)).take num_recommendations

/-! ### src/meal_recommender.py : quick meal ideas -/

/-- A quick-meal copy annotated with its source partition, as
get_quick_meal_ideas builds them. -/
structure QuickMeal where
  meal : Meal
  meal_type : String
deriving DecidableEq

/-- Embedding of MealRecommender.get_quick_meal_ideas (src/meal_recommender.py
340-363): flatten the catalog, keep entries preparing in at most 15 minutes,
filter by the restriction superset test when restrictions are given (both None
and [] are falsy, modelled as the empty list), sort ascending by preparation
time (stable, like Python list.sort), return the first 6. -/
def get_quick_meal_ideas (dietary_restrictions : List String) : List QuickMeal :=
  let quick_meals := meals_database.flatMap (fun part =>
    part.2.filterMap (fun meal =>
      if meal.preparation_time ≤ 15 then
        if dietary_restrictions.isEmpty ||
           dietary_restrictions.all (fun r =>
             (meal.dietary_tags.map pyLower).contains (pyLower r))
        then some ⟨meal, part.1⟩ else none
      else none))
  (quick_meals.insertionSort
    (fun a b => a.meal.preparation_time ≤ b.meal.preparation_time)).take 6

/-! ### src/meal_recommender.py : nutrition pattern analysis -/

/-- Insight string of src/meal_recommender.py line 387. -/
def lowProteinMsg : String :=
  "Consider increasing protein intake for better muscle maintenance and satiety."

/-- Insight string of src/meal_recommender.py line 390. -/
def lowCaloriesMsg : String :=
  "Your average calorie intake seems low. Consider adding healthy snacks."

/-- Insight string of src/meal_recommender.py line 392. -/
def highCaloriesMsg : String :=
  "Your calorie intake is quite high. Consider portion control if weight loss is your goal."

/-- Insight string of src/meal_recommender.py line 395. -/
def skipBreakfastMsg : String :=
  "Don\x27t skip breakfast! It helps maintain steady energy levels throughout the day."

/-- One step of the meal_types dict-count loop (src/meal_recommender.py 378-381). -/
def bumpCount : List (String × ℕ) → String → List (String × ℕ)
  | [], key => [(key, 1)]
  | (k, v) :: rest, key =>
    if k = key then (k, v + 1) :: rest else (k, v) :: bumpCount rest key

/-- Meal-type distribution dict, insertion-ordered like a Python dict. -/
def mealTypeCounts (meal_logs : List MealLog) : List (String × ℕ) :=
  meal_logs.foldl (fun acc meal => bumpCount acc meal.meal_type) []

/-- The statistics dict returned by analyze_nutrition_patterns on data. -/
structure NutritionStats where
  avg_calories : ℚ
  avg_protein : ℚ
  avg_carbs : ℚ
  avg_fat : ℚ
  meal_distribution : List (String × ℕ)
  insights : List String
  total_meals_analyzed : ℕ
deriving DecidableEq

/-- Return shape of analyze_nutrition_patterns: either the error dict of line
368 or the statistics dict of lines 397-405. -/
inductive AnalysisResult where
  | failure (error : String)
  | stats (s : NutritionStats)
deriving DecidableEq

/-- Embedding of MealRecommender.analyze_nutrition_patterns
(src/meal_recommender.py 365-405). -/
def analyze_nutrition_patterns (meal_logs : List MealLog) : AnalysisResult :=
  if meal_logs.isEmpty then .failure "No meal data available for analysis"
  else
    let total_meals : ℚ := meal_logs.length
    let avg_calories := (meal_logs.map (fun m => m.calories)).sum / total_meals
    let avg_protein := (meal_logs.map (fun m => m.protein)).sum / total_meals
    let avg_carbs := (meal_logs.map (fun m => m.carbs)).sum / total_meals
    let avg_fat := (meal_logs.map (fun m => m.fat)).sum / total_meals
    let meal_types := mealTypeCounts meal_logs
    let insights :=
      (if avg_protein < 15 then [lowProteinMsg] else []) ++
      (if avg_calories < 1200 then [lowCaloriesMsg]
       else if 2500 < avg_calories then [highCaloriesMsg] else []) ++
      (if ((dictGet meal_types "Breakfast" 0 : ℕ) : ℚ) < total_meals * 0.2
       then [skipBreakfastMsg] else [])
    .stats ⟨round1 avg_calories, round1 avg_protein, round1 avg_carbs, round1 avg_fat,
            meal_types, insights, meal_logs.length⟩

/-! ### src/nutrition_api.py : ingredient quality heuristic -/

/-- Positive keyword list of analyze_ingredient_quality (src/nutrition_api.py 179-182). -/
def positive_keywords : List String :=
  ["organic", "natural", "whole grain", "fresh", "pure",
   "virgin", "unrefined", "raw", "free-range"]

/-- Negative keyword list of analyze_ingredient_quality (src/nutrition_api.py 185-189). -/
def negative_keywords : List String :=
  ["artificial", "preservatives", "high fructose corn syrup",
   "trans fat", "hydrogenated", "monosodium glutamate",
   "artificial colors", "artificial flavors"]

/-- Return shape of analyze_ingredient_quality; the empty-input branch of the
source returns a dict without the ingredient_count key, modelled as none. -/
structure QualityResult where
  quality_score : ℤ
  insights : List String
  ingredient_count : Option ℕ
deriving DecidableEq

/-- Embedding of OpenFoodFactsAPI.analyze_ingredient_quality
(src/nutrition_api.py 169-222): start at 50, +10 per positive keyword found,
-15 per negative keyword found, +5 or -5 by comma-count of the ingredient list,
then clamp to [0, 100]. -/
def analyze_ingredient_quality (ingredients_text : String) : QualityResult :=
  if ingredients_text = "" then ⟨0, ["No ingredient information available"], none⟩
  else
    let ingredients := pyLower ingredients_text
    let afterPos := positive_keywords.foldl
      (fun (acc : ℤ × List String) keyword =>
        if pyContains ingredients keyword then
          (acc.1 + 10, acc.2 ++ ["Contains " ++ keyword ++ " - good quality indicator"])
        else acc)
      (50, [])
    let afterNeg := negative_keywords.foldl
      (fun (acc : ℤ × List String) keyword =>
        if pyContains ingredients keyword then
          (acc.1 - 15, acc.2 ++ ["Contains " ++ keyword ++ " - consider alternatives"])
        else acc)
      afterPos
    let ingredient_count := ingredients.data.count ',' + 1
    let afterCount :=
      if ingredient_count ≤ 5 then
        (afterNeg.1 + 5, afterNeg.2 ++ ["Simple ingredient list - usually a good sign"])
      else if 15 < ingredient_count then
        (afterNeg.1 - 5, afterNeg.2 ++ ["Long ingredient list - check for unnecessary additives"])
      else afterNeg
    let quality_score := max 0 (min 100 afterCount.1)
    let insights :=
      if afterCount.2.isEmpty then ["Standard ingredient profile - no specific concerns identified"]
      else afterCount.2
    ⟨quality_score, insights, some ingredient_count⟩

/-! ### Concrete sample data used by witness theorems -/

/-- A profile the application form accepts, used to instantiate C1. -/
def sampleProfile : UserProfile :=
  { name := "", age := 25, weight := 70, height := 170, gender := "Male",
    activity_level := "Sedentary (little/no exercise)", goal := "",
    dietary_restrictions := [], allergies := "",
    bmr := calculate_bmr 70 170 25 "Male",
    daily_calories := calculate_daily_calories (calculate_bmr 70 170 25 "Male")
      "Sedentary (little/no exercise)" }

/-- A concrete meal log entry, used to instantiate C5 and C6. -/
def sampleLog : MealLog :=
  { meal_name := "Stir-fry", meal_type := "Lunch", calories := 400, protein := 10,
    carbs := 40, fat := 10, date := "2024-01-01", time := "12:30" }

/-! ### Helper lemmas -/

/-- Round-half-to-even moves a rational by at most one half. -/
theorem roundHE_close (q : ℚ) : |(roundHE q : ℚ) - q| ≤ 1/2 := by
  have h1 : (⌊q⌋ : ℚ) ≤ q := Int.floor_le q
  have h2 : q < ⌊q⌋ + 1 := Int.lt_floor_add_one q
  unfold roundHE
  split_ifs <;> push_cast <;> rw [abs_le] <;> constructor <;> linarith

/-- Three one-decimal roundings of values summing to 100 stay within 0.1 of 100:
each rounding moves by at most 0.05, and the rounded sum is a multiple of 0.1. -/
theorem round1_sum_close (q₁ q₂ q₃ : ℚ) (h : q₁ + q₂ + q₃ = 100) :
    |round1 q₁ + round1 q₂ + round1 q₃ - 100| ≤ 0.1 := by
  have e1 := roundHE_close (q₁ * 10)
  have e2 := roundHE_close (q₂ * 10)
  have e3 := roundHE_close (q₃ * 10)
  have hsum : |((roundHE (q₁ * 10) + roundHE (q₂ * 10) + roundHE (q₃ * 10) - 1000 : ℤ) : ℚ)| ≤ 3/2 := by
    have heq : ((roundHE (q₁ * 10) + roundHE (q₂ * 10) + roundHE (q₃ * 10) - 1000 : ℤ) : ℚ) =
        ((roundHE (q₁ * 10) : ℚ) - q₁ * 10) + ((roundHE (q₂ * 10) : ℚ) - q₂ * 10) +
          ((roundHE (q₃ * 10) : ℚ) - q₃ * 10) := by
      push_cast
      linarith
    rw [heq]
    calc |((roundHE (q₁ * 10) : ℚ) - q₁ * 10) + ((roundHE (q₂ * 10) : ℚ) - q₂ * 10) +
            ((roundHE (q₃ * 10) : ℚ) - q₃ * 10)|
        ≤ |((roundHE (q₁ * 10) : ℚ) - q₁ * 10) + ((roundHE (q₂ * 10) : ℚ) - q₂ * 10)| +
            |((roundHE (q₃ * 10) : ℚ) - q₃ * 10)| := abs_add _ _
      _ ≤ |((roundHE (q₁ * 10) : ℚ) - q₁ * 10)| + |((roundHE (q₂ * 10) : ℚ) - q₂ * 10)| +
            |((roundHE (q₃ * 10) : ℚ) - q₃ * 10)| := by
            have := abs_add ((roundHE (q₁ * 10) : ℚ) - q₁ * 10) ((roundHE (q₂ * 10) : ℚ) - q₂ * 10)
            linarith
      _ ≤ 3/2 := by linarith
  have hint : |roundHE (q₁ * 10) + roundHE (q₂ * 10) + roundHE (q₃ * 10) - 1000| ≤ 1 := by
    have h2 : ((|roundHE (q₁ * 10) + roundHE (q₂ * 10) + roundHE (q₃ * 10) - 1000| : ℤ) : ℚ) ≤ 3/2 := by
      rw [Int.cast_abs]; exact hsum
    have h3 : ((|roundHE (q₁ * 10) + roundHE (q₂ * 10) + roundHE (q₃ * 10) - 1000| : ℤ) : ℚ) <
        ((2 : ℤ) : ℚ) := lt_of_le_of_lt h2 (by norm_num)
    have h4 := Int.cast_lt.mp h3
    omega
  have hrw : round1 q₁ + round1 q₂ + round1 q₃ - 100 =
      ((roundHE (q₁ * 10) + roundHE (q₂ * 10) + roundHE (q₃ * 10) - 1000 : ℤ) : ℚ) / 10 := by
    unfold round1
    push_cast
    ring
  rw [hrw, abs_div, show |(10 : ℚ)| = 10 from by norm_num]
  have h5 : |((roundHE (q₁ * 10) + roundHE (q₂ * 10) + roundHE (q₃ * 10) - 1000 : ℤ) : ℚ)| ≤ 1 := by
    rw [← Int.cast_abs]
    exact_mod_cast hint
  linarith

/-! ### Claim C3 -/

/-- C3 is false on the code: for weight 70, height 170, age 25, male, the
Mifflin-St Jeor computation of calculate_bmr yields 1642.5, not the 1667.5 the
spec states, and the daily calories at multiplier 1.2 are 1971.0, not 2001.0. -/
theorem C3_counterexample :
    calculate_bmr 70 170 25 "male" ≠ 1667.5 ∧
    calculate_daily_calories (calculate_bmr 70 170 25 "male") "Sedentary" ≠ 2001 := by
  have hg : pyLower "male" = "male" := by decide
  have hdg : dictGet activity_multipliers "Sedentary" (1.2 : ℚ) = 1.2 := by
    simp only [activity_multipliers, dictGet]
    rw [if_neg (by decide), if_neg (by decide), if_neg (by decide), if_neg (by decide),
      if_neg (by decide)]
  refine ⟨by norm_num [calculate_bmr, hg], ?_⟩
  unfold calculate_daily_calories
  rw [hdg]
  norm_num [calculate_bmr, hg]

/-- C3 amended: calculate_bmr(70, 170, 25, male) = 1642.5 exactly, and
calculate_daily_calories of that BMR with activity level "Sedentary" (not a key
of the table, hence the default multiplier 1.2) = 1971.0 exactly. -/
theorem C3_amended :
    calculate_bmr 70 170 25 "male" = 1642.5 ∧
    calculate_daily_calories (calculate_bmr 70 170 25 "male") "Sedentary" = 1971 := by
  have hg : pyLower "male" = "male" := by decide
  have hdg : dictGet activity_multipliers "Sedentary" (1.2 : ℚ) = 1.2 := by
    simp only [activity_multipliers, dictGet]
    rw [if_neg (by decide), if_neg (by decide), if_neg (by decide), if_neg (by decide),
      if_neg (by decide)]
  refine ⟨by norm_num [calculate_bmr, hg], ?_⟩
  unfold calculate_daily_calories
  rw [hdg]
  norm_num [calculate_bmr, hg]

/-! ### Claim C8 -/

/-- C8: calculate_daily_calories multiplies bmr by the fixed table value for the
five activity tiers (1.2, 1.375, 1.55, 1.725, 1.9 in source order), and any
level outside the table silently gets bmr times 1.2. -/
theorem C8_daily_calories (bmr : ℚ) :
    calculate_daily_calories bmr "Sedentary (little/no exercise)" = bmr * 1.2 ∧
    calculate_daily_calories bmr "Lightly active (light exercise 1-3 days/week)" = bmr * 1.375 ∧
    calculate_daily_calories bmr "Moderately active (moderate exercise 3-5 days/week)" = bmr * 1.55 ∧
    calculate_daily_calories bmr "Very active (hard exercise 6-7 days/week)" = bmr * 1.725 ∧
    calculate_daily_calories bmr "Extremely active (very hard exercise, physical job)" = bmr * 1.9 ∧
    ∀ level : String, level ∉ activity_multipliers.map Prod.fst →
      calculate_daily_calories bmr level = bmr * 1.2 := by
  refine ⟨?_, ?_, ?_, ?_, ?_, ?_⟩
  · simp [calculate_daily_calories, dictGet, activity_multipliers]
  · simp [calculate_daily_calories, dictGet, activity_multipliers]
  · simp [calculate_daily_calories, dictGet, activity_multipliers]
  · simp [calculate_daily_calories, dictGet, activity_multipliers]
  · simp [calculate_daily_calories, dictGet, activity_multipliers]
  · intro level h
    simp only [activity_multipliers, List.map, List.mem_cons, List.not_mem_nil, or_false,
      not_or] at h
    obtain ⟨h1, h2, h3, h4, h5⟩ := h
    simp only [calculate_daily_calories, dictGet, activity_multipliers]
    rw [if_neg (fun he => h1 he.symm), if_neg (fun he => h2 he.symm),
      if_neg (fun he => h3 he.symm), if_neg (fun he => h4 he.symm),
      if_neg (fun he => h5 he.symm)]

/-- Witness for C8 at bmr 1000 and the unknown level "Moderate". -/
theorem C8_witness :
    "Moderate" ∉ activity_multipliers.map Prod.fst ∧
    calculate_daily_calories 1000 "Moderate" = 1000 * 1.2 :=
  ⟨by decide, (C8_daily_calories 1000).2.2.2.2.2 "Moderate" (by decide)⟩

/-! ### Claim C9 -/

/-- C9: calculate_bmr is strictly increasing in weight and in height, strictly
decreasing in age, and for identical weight, height and age the male branch
exceeds the non-male branch by exactly 166. -/
theorem C9_bmr_monotone :
    (∀ (w₁ w₂ h a : ℚ) (g : String), w₁ < w₂ →
      calculate_bmr w₁ h a g < calculate_bmr w₂ h a g) ∧
    (∀ (w h₁ h₂ a : ℚ) (g : String), h₁ < h₂ →
      calculate_bmr w h₁ a g < calculate_bmr w h₂ a g) ∧
    (∀ (w h a₁ a₂ : ℚ) (g : String), a₁ < a₂ →
      calculate_bmr w h a₂ g < calculate_bmr w h a₁ g) ∧
    (∀ (w h a : ℚ) (g₁ g₂ : String), pyLower g₁ = "male" → pyLower g₂ ≠ "male" →
      calculate_bmr w h a g₁ = calculate_bmr w h a g₂ + 166) := by
  refine ⟨?_, ?_, ?_, ?_⟩
  · intro w₁ w₂ h a g hw
    unfold calculate_bmr
    split_ifs <;> linarith
  · intro w h₁ h₂ a g hh
    unfold calculate_bmr
    split_ifs <;> linarith
  · intro w h a₁ a₂ g ha
    unfold calculate_bmr
    split_ifs <;> linarith
  · intro w h a g₁ g₂ hg₁ hg₂
    unfold calculate_bmr
    rw [if_pos hg₁, if_neg hg₂]
    ring

/-- Witness for C9 at concrete weights and genders. -/
theorem C9_witness :
    ((70 : ℚ) < 80 ∧ calculate_bmr 70 170 25 "Male" < calculate_bmr 80 170 25 "Male") ∧
    pyLower "Male" = "male" ∧ pyLower "Female" ≠ "male" ∧
    calculate_bmr 70 170 25 "Male" = calculate_bmr 70 170 25 "Female" + 166 :=
  ⟨⟨by norm_num, C9_bmr_monotone.1 70 80 170 25 "Male" (by norm_num)⟩,
   by decide, by decide,
   C9_bmr_monotone.2.2.2 70 170 25 "Male" "Female" (by decide) (by decide)⟩

/-! ### Claim C10 -/

/-- C10: analyze_ingredient_quality always clamps the quality score into
[0, 100], and the empty ingredient string scores 0. -/
theorem C10_quality_score_range :
    (∀ s : String, 0 ≤ (analyze_ingredient_quality s).quality_score ∧
      (analyze_ingredient_quality s).quality_score ≤ 100) ∧
    (analyze_ingredient_quality "").quality_score = 0 := by
  constructor
  · intro s
    unfold analyze_ingredient_quality
    split
    · exact ⟨by norm_num, by norm_num⟩
    · exact ⟨le_max_left _ _, max_le (by norm_num) (min_le_left _ _)⟩
  · rfl

/-! ### Claim C4 -/

/-- C4: for nonnegative gram inputs with positive total, the three percentages
of calculate_macro_percentages sum to 100 within the 0.1 rounding tolerance,
and the all-zero input returns the all-zero record. -/
theorem C4_macro_percentages :
    (∀ protein carbs fat : ℚ, 0 ≤ protein → 0 ≤ carbs → 0 ≤ fat →
      0 < protein + carbs + fat →
      |(calculate_macro_percentages protein carbs fat).protein +
        (calculate_macro_percentages protein carbs fat).carbs +
        (calculate_macro_percentages protein carbs fat).fat - 100| ≤ 0.1) ∧
    calculate_macro_percentages 0 0 0 = ⟨0, 0, 0⟩ := by
  constructor
  · intro protein carbs fat hp hc hf hsum
    have hT : 0 < protein * 4 + carbs * 4 + fat * 9 := by linarith
    unfold calculate_macro_percentages
    rw [if_neg hT.ne']
    apply round1_sum_close
    field_simp
    ring
  · norm_num [calculate_macro_percentages]

/-- Witness for C4 at 30 g protein, 40 g carbs, 30 g fat. -/
theorem C4_witness :
    ((0 : ℚ) ≤ 30 ∧ (0 : ℚ) ≤ 40 ∧ (0 : ℚ) ≤ 30 ∧ (0 : ℚ) < 30 + 40 + 30) ∧
    |(calculate_macro_percentages 30 40 30).protein +
      (calculate_macro_percentages 30 40 30).carbs +
      (calculate_macro_percentages 30 40 30).fat - 100| ≤ 0.1 :=
  ⟨⟨by norm_num, by norm_num, by norm_num, by norm_num⟩,
   C4_macro_percentages.1 30 40 30 (by norm_num) (by norm_num) (by norm_num) (by norm_num)⟩

/-! ### Claim C2 -/

/-- A character of a string survives into some character of the string after
python strip only if every character is whitespace; contrapositively, a
non-whitespace member keeps the stripped string non-empty. -/
theorem pyStrip_all_whitespace {s : String} (h : (pyStrip s).data = []) :
    ∀ c ∈ s.data, c.isWhitespace = true := by
  intro c hc
  unfold pyStrip at h
  simp only [List.reverse_eq_nil_iff, List.dropWhile_eq_nil_iff, List.mem_reverse] at h
  have hc2 : c ∈ s.data.takeWhile Char.isWhitespace ++ s.data.dropWhile Char.isWhitespace := by
    rw [List.takeWhile_append_dropWhile]
    exact hc
  rcases List.mem_append.mp hc2 with h1 | h2
  · exact List.mem_takeWhile_imp h1
  · exact h c h2

/-- A non-whitespace character in a string witnesses that its strip is non-empty. -/
theorem pyStrip_isEmpty_false {s : String} {c : Char} (hc : c ∈ s.data)
    (hw : c.isWhitespace = false) : (pyStrip s).data.isEmpty = false := by
  rw [List.isEmpty_eq_false]
  intro h
  have hcontra := pyStrip_all_whitespace h c hc
  rw [hw] at hcontra
  exact Bool.false_ne_true hcontra

/-- Membership in string data is preserved by appending on the right. -/
theorem mem_data_append_left {a b : String} {c : Char} (h : c ∈ a.data) : c ∈ (a ++ b).data := by
  rw [String.data_append]
  exact List.mem_append_left _ h

/-- C2 is false on the code: a Meal Logs Only export over a range with no rows
returns the header-only document, not None, because the header row makes the
generated text non-empty. -/
theorem C2_counterexample :
    export_progress_to_csv "2024-01-01 00:00" "2024-01-01" "2024-01-31" "Meal Logs Only"
      [] [] [] ≠ none := by decide

/-- C2 amended: when the selected range yields no rows in any requested section,
export_progress_to_csv still returns a document rather than None: the metadata
block alone for All Data, and the bare header row for each single-kind export;
None would require the generated text to strip to nothing, which no recognised
export kind produces. -/
theorem C2_amended : ∀ now start_date end_date : String,
    export_progress_to_csv now start_date end_date "All Data" [] [] [] =
      some (csvRow ["Export Date", now] ++
        csvRow ["Data Period", start_date ++ " to " ++ end_date] ++ csvRow []) ∧
    export_progress_to_csv now start_date end_date "Meal Logs Only" [] [] [] =
      some (csvRow mealLogHeader) ∧
    export_progress_to_csv now start_date end_date "Water Intake Only" [] [] [] =
      some (csvRow ["Date/Time", "Amount (ml)"]) ∧
    export_progress_to_csv now start_date end_date "Mood Logs Only" [] [] [] =
      some (csvRow ["Date/Time", "Rating (1-10)", "Notes"]) := by
  intro now start_date end_date
  refine ⟨?_, ?_, ?_, ?_⟩
  · have h1 : 'E' ∈ (csvField "Export Date").data := by decide
    have h2 : 'E' ∈ (joinComma (["Export Date", now].map csvField)).data := by
      simp only [List.map_cons, List.map_nil]
      show 'E' ∈ (csvField "Export Date" ++ "," ++ joinComma [csvField now]).data
      exact mem_data_append_left (mem_data_append_left h1)
    have h3 : 'E' ∈ (csvRow ["Export Date", now]).data := by
      unfold csvRow
      exact mem_data_append_left h2
    have hcmem : 'E' ∈ (csvRow ["Export Date", now] ++
        csvRow ["Data Period", start_date ++ " to " ++ end_date] ++ csvRow []).data :=
      mem_data_append_left (mem_data_append_left h3)
    unfold export_progress_to_csv
    simp only [List.isEmpty_nil, if_true, String.append_empty]
    unfold stripOrNone
    rw [pyStrip_isEmpty_false hcmem (by decide)]
    simp
  · unfold export_progress_to_csv
    rw [if_neg (by decide), if_pos rfl]
    decide
  · unfold export_progress_to_csv
    rw [if_neg (by decide), if_neg (by decide), if_pos rfl]
    decide
  · unfold export_progress_to_csv
    rw [if_neg (by decide), if_neg (by decide), if_neg (by decide), if_pos rfl]
    decide

/-! ### Claim C6 -/

/-- C6: analyze_nutrition_patterns returns the insufficient-data error record on
the empty list, and on any non-empty log list with average protein below 15 g
its statistics include the low-protein insight. -/
theorem C6_nutrition_patterns :
    analyze_nutrition_patterns [] = .failure "No meal data available for analysis" ∧
    ∀ meal_logs : List MealLog, meal_logs ≠ [] →
      (meal_logs.map (fun m => m.protein)).sum / (meal_logs.length : ℚ) < 15 →
      ∃ st, analyze_nutrition_patterns meal_logs = .stats st ∧ lowProteinMsg ∈ st.insights := by
  constructor
  · rfl
  · intro meal_logs hne hp
    have he : meal_logs.isEmpty = false := by rwa [List.isEmpty_eq_false]
    unfold analyze_nutrition_patterns
    rw [if_neg (by simp [he])]
    refine ⟨_, rfl, ?_⟩
    simp only [hp, if_true]
    simp

/-! ### Claim C5 -/

/-- The morning bucket of the grouping loop is the sublist of entries whose
parsed hour lies in [5,12). -/
theorem bucketMeals_morning (logs : List MealLog) :
    (bucketMeals logs).1 = logs.filter inMorning := by
  induction logs with
  | nil => rfl
  | cons meal rest ih =>
    rcases hp : pyParseInt (hourDigits meal.time) with _ | hour
    · simp [bucketMeals, hp, List.filter_cons, inMorning, ih]
    · by_cases h1 : 5 ≤ hour ∧ hour < 12
      · simp [bucketMeals, hp, List.filter_cons, inMorning, h1, ih]
      · by_cases h2 : 12 ≤ hour ∧ hour < 17
        · simp [bucketMeals, hp, List.filter_cons, inMorning, h1, h2, ih]
        · simp [bucketMeals, hp, List.filter_cons, inMorning, h1, h2, ih]

/-- The afternoon bucket of the grouping loop is the sublist of entries whose
parsed hour lies in [12,17). -/
theorem bucketMeals_afternoon (logs : List MealLog) :
    (bucketMeals logs).2.1 = logs.filter inAfternoon := by
  induction logs with
  | nil => rfl
  | cons meal rest ih =>
    rcases hp : pyParseInt (hourDigits meal.time) with _ | hour
    · simp [bucketMeals, hp, List.filter_cons, inAfternoon, ih]
    · by_cases h1 : 5 ≤ hour ∧ hour < 12
      · simp [bucketMeals, hp, List.filter_cons, inAfternoon, h1, ih]
      · by_cases h2 : 12 ≤ hour ∧ hour < 17
        · simp [bucketMeals, hp, List.filter_cons, inAfternoon, h1, h2, ih]
        · simp [bucketMeals, hp, List.filter_cons, inAfternoon, h1, h2, ih]

/-- The evening bucket of the grouping loop is the sublist of entries whose
parsed hour lies outside both [5,12) and [12,17). -/
theorem bucketMeals_evening (logs : List MealLog) :
    (bucketMeals logs).2.2 = logs.filter inEvening := by
  induction logs with
  | nil => rfl
  | cons meal rest ih =>
    rcases hp : pyParseInt (hourDigits meal.time) with _ | hour
    · simp [bucketMeals, hp, List.filter_cons, inEvening, ih]
    · by_cases h1 : 5 ≤ hour ∧ hour < 12
      · simp [bucketMeals, hp, List.filter_cons, inEvening, h1, ih]
      · by_cases h2 : 12 ≤ hour ∧ hour < 17
        · simp [bucketMeals, hp, List.filter_cons, inEvening, h1, h2, ih]
        · simp [bucketMeals, hp, List.filter_cons, inEvening, h1, h2, ih]

/-- Membership in a conditional singleton list. -/
theorem mem_ite_singleton {c : Prop} [Decidable c] {m x : String} :
    (m ∈ if c then [x] else ([] : List String)) ↔ c ∧ m = x := by
  split <;> rename_i h <;> simp [h]

/-- Membership in the balanced-fallback wrapper for a message distinct from the
fallback string. -/
theorem mem_wrapBalanced {ins : List String} {fb m : String} (hm : m ≠ fb) :
    (m ∈ if ins.isEmpty then [fb] else ins) ↔ m ∈ ins := by
  split
  · rename_i h
    rw [List.isEmpty_iff] at h
    subst h
    simp [hm]
  · exact Iff.rfl

/-- C5: on a non-empty log list, the grouping loop buckets entries by parsed
hour into morning [5,12), afternoon [12,17) and evening (everything else),
skipping entries whose time string does not parse, and each of the four timing
insight strings is emitted exactly under its fraction condition (morning < 20
percent, evening > 50 percent, afternoon > 60 percent, late meals > 30 percent
of all logs). -/
theorem C5_timing_insights : ∀ meal_logs : List MealLog, meal_logs ≠ [] →
    (bucketMeals meal_logs).1 = meal_logs.filter inMorning ∧
    (bucketMeals meal_logs).2.1 = meal_logs.filter inAfternoon ∧
    (bucketMeals meal_logs).2.2 = meal_logs.filter inEvening ∧
    (skipMorningMsg ∈ get_meal_timing_insights meal_logs ↔
      ((meal_logs.filter inMorning).length : ℚ) / (meal_logs.length : ℚ) < 0.2) ∧
    (eveningHeavyMsg ∈ get_meal_timing_insights meal_logs ↔
      ((meal_logs.filter inEvening).length : ℚ) / (meal_logs.length : ℚ) > 0.5) ∧
    (middayMsg ∈ get_meal_timing_insights meal_logs ↔
      ((meal_logs.filter inAfternoon).length : ℚ) / (meal_logs.length : ℚ) > 0.6) ∧
    (lateMealsMsg ∈ get_meal_timing_insights meal_logs ↔
      (meal_logs.countP latePred : ℚ) > (meal_logs.length : ℚ) * 0.3) := by
  intro logs hne
  have he : logs.isEmpty = false := by rwa [List.isEmpty_eq_false]
  have hm := bucketMeals_morning logs
  have ha := bucketMeals_afternoon logs
  have hv := bucketMeals_evening logs
  have hrep0 : get_meal_timing_insights logs =
      (if ((if ((bucketMeals logs).1.length : ℚ) / (logs.length : ℚ) < 0.2
              then [skipMorningMsg] else []) ++
            (if ((bucketMeals logs).2.2.length : ℚ) / (logs.length : ℚ) > 0.5
              then [eveningHeavyMsg] else []) ++
            (if ((bucketMeals logs).2.1.length : ℚ) / (logs.length : ℚ) > 0.6
              then [middayMsg] else []) ++
            (if (logs.countP latePred : ℚ) > (logs.length : ℚ) * 0.3
              then [lateMealsMsg] else [])).isEmpty
       then [balancedTimingMsg]
       else
         (if ((bucketMeals logs).1.length : ℚ) / (logs.length : ℚ) < 0.2
            then [skipMorningMsg] else []) ++
         (if ((bucketMeals logs).2.2.length : ℚ) / (logs.length : ℚ) > 0.5
            then [eveningHeavyMsg] else []) ++
         (if ((bucketMeals logs).2.1.length : ℚ) / (logs.length : ℚ) > 0.6
            then [middayMsg] else []) ++
         (if (logs.countP latePred : ℚ) > (logs.length : ℚ) * 0.3
            then [lateMealsMsg] else [])) := by
    unfold get_meal_timing_insights
    rw [if_neg (by simp [he])]
  rw [hm, ha, hv] at hrep0
  have nAB : skipMorningMsg ≠ eveningHeavyMsg := by decide
  have nAC : skipMorningMsg ≠ middayMsg := by decide
  have nAD : skipMorningMsg ≠ lateMealsMsg := by decide
  have nAE : skipMorningMsg ≠ balancedTimingMsg := by decide
  have nBA : eveningHeavyMsg ≠ skipMorningMsg := by decide
  have nBC : eveningHeavyMsg ≠ middayMsg := by decide
  have nBD : eveningHeavyMsg ≠ lateMealsMsg := by decide
  have nBE : eveningHeavyMsg ≠ balancedTimingMsg := by decide
  have nCA : middayMsg ≠ skipMorningMsg := by decide
  have nCB : middayMsg ≠ eveningHeavyMsg := by decide
  have nCD : middayMsg ≠ lateMealsMsg := by decide
  have nCE : middayMsg ≠ balancedTimingMsg := by decide
  have nDA : lateMealsMsg ≠ skipMorningMsg := by decide
  have nDB : lateMealsMsg ≠ eveningHeavyMsg := by decide
  have nDC : lateMealsMsg ≠ middayMsg := by decide
  have nDE : lateMealsMsg ≠ balancedTimingMsg := by decide
  refine ⟨hm, ha, hv, ?_, ?_, ?_, ?_⟩
  · rw [hrep0, mem_wrapBalanced nAE]
    simp only [List.mem_append, mem_ite_singleton]
    simp [nAB, nAC, nAD]
  · rw [hrep0, mem_wrapBalanced nBE]
    simp only [List.mem_append, mem_ite_singleton]
    simp [nBA, nBC, nBD]
  · rw [hrep0, mem_wrapBalanced nCE]
    simp only [List.mem_append, mem_ite_singleton]
    simp [nCA, nCB, nCD]
  · rw [hrep0, mem_wrapBalanced nDE]
    simp only [List.mem_append, mem_ite_singleton]
    simp [nDA, nDB, nDC]

/-- Witness for C5 on the single 12:30 lunch log. -/
theorem C5_witness :
    ([sampleLog] : List MealLog) ≠ [] ∧
    ((bucketMeals [sampleLog]).1 = [sampleLog].filter inMorning ∧
     (bucketMeals [sampleLog]).2.1 = [sampleLog].filter inAfternoon ∧
     (bucketMeals [sampleLog]).2.2 = [sampleLog].filter inEvening ∧
     (skipMorningMsg ∈ get_meal_timing_insights [sampleLog] ↔
       (([sampleLog].filter inMorning).length : ℚ) / (([sampleLog] : List MealLog).length : ℚ) < 0.2) ∧
     (eveningHeavyMsg ∈ get_meal_timing_insights [sampleLog] ↔
       (([sampleLog].filter inEvening).length : ℚ) / (([sampleLog] : List MealLog).length : ℚ) > 0.5) ∧
     (middayMsg ∈ get_meal_timing_insights [sampleLog] ↔
       (([sampleLog].filter inAfternoon).length : ℚ) / (([sampleLog] : List MealLog).length : ℚ) > 0.6) ∧
     (lateMealsMsg ∈ get_meal_timing_insights [sampleLog] ↔
       (([sampleLog] : List MealLog).countP latePred : ℚ) >
         (([sampleLog] : List MealLog).length : ℚ) * 0.3)) :=
  ⟨by simp, C5_timing_insights [sampleLog] (by simp)⟩

/-! ### Claim C7 -/

/-- C7: every entry of get_quick_meal_ideas prepares in at most 15 minutes and
carries all requested dietary tags, the output is sorted ascending by
preparation time, holds at most 6 entries, and an unsatisfiable restriction
yields the empty list (no fallback). -/
theorem C7_quick_meal_ideas :
    (∀ restrictions : List String, ∀ qm ∈ get_quick_meal_ideas restrictions,
      qm.meal.preparation_time ≤ 15 ∧
      ∀ r ∈ restrictions, (qm.meal.dietary_tags.map pyLower).contains (pyLower r) = true) ∧
    (∀ restrictions : List String, (get_quick_meal_ideas restrictions).length ≤ 6) ∧
    (∀ restrictions : List String,
      List.Sorted (fun a b : QuickMeal => a.meal.preparation_time ≤ b.meal.preparation_time)
        (get_quick_meal_ideas restrictions)) ∧
    get_quick_meal_ideas ["halal"] = [] := by
  refine ⟨?_, ?_, ?_, by decide⟩
  · intro restrictions qm hqm
    have hqm2 := List.mem_of_mem_take hqm
    have hqm3 := (List.perm_insertionSort
      (fun a b : QuickMeal => a.meal.preparation_time ≤ b.meal.preparation_time) _).mem_iff.mp hqm2
    rw [List.mem_flatMap] at hqm3
    obtain ⟨part, _, hmem⟩ := hqm3
    rw [List.mem_filterMap] at hmem
    obtain ⟨meal, _, heq⟩ := hmem
    by_cases hprep : meal.preparation_time ≤ 15
    · rw [if_pos hprep] at heq
      by_cases hrs : (restrictions.isEmpty ||
          restrictions.all (fun r =>
            (meal.dietary_tags.map pyLower).contains (pyLower r))) = true
      · rw [if_pos hrs] at heq
        obtain rfl : qm = ⟨meal, part.1⟩ := (Option.some_inj.mp heq).symm
        refine ⟨hprep, ?_⟩
        intro r hr
        rw [Bool.or_eq_true] at hrs
        rcases hrs with hemp | hall
        · rw [List.isEmpty_iff] at hemp
          subst hemp
          exact absurd hr (List.not_mem_nil r)
        · exact List.all_eq_true.mp hall r hr
      · rw [if_neg hrs] at heq
        exact absurd heq (Option.noConfusion)
    · rw [if_neg hprep] at heq
      exact absurd heq (Option.noConfusion)
  · intro restrictions
    exact List.length_take_le 6 _
  · intro restrictions
    haveI : IsTotal QuickMeal
        (fun a b => a.meal.preparation_time ≤ b.meal.preparation_time) :=
      ⟨fun a b => le_total _ _⟩
    haveI : IsTrans QuickMeal
        (fun a b => a.meal.preparation_time ≤ b.meal.preparation_time) :=
      ⟨fun a b c hab hbc => le_trans hab hbc⟩
    exact List.Pairwise.sublist (List.take_sublist _ _) (List.sorted_insertionSort _ _)

/-- Witness for C7: the vegan restriction admits Mixed Nuts among the quick ideas. -/
theorem C7_witness :
    (⟨mixedNuts, "Snack"⟩ : QuickMeal) ∈ get_quick_meal_ideas ["vegan"] ∧
    "vegan" ∈ ["vegan"] ∧
    ((⟨mixedNuts, "Snack"⟩ : QuickMeal).meal.preparation_time ≤ 15 ∧
      ∀ r ∈ ["vegan"],
        ((⟨mixedNuts, "Snack"⟩ : QuickMeal).meal.dietary_tags.map pyLower).contains (pyLower r)
          = true) := by
  have hmem : (⟨mixedNuts, "Snack"⟩ : QuickMeal) ∈ get_quick_meal_ideas ["vegan"] := by decide
  exact ⟨hmem, by decide, C7_quick_meal_ideas.1 ["vegan"] _ hmem⟩

/-! ### Claim C1 -/

/-- The dietary-restriction filter only selects meals from its input list. -/
theorem filter_by_subset {meals : List Meal} {restrictions : List String} {m : Meal}
    (hm : m ∈ filter_by_dietary_restrictions meals restrictions) : m ∈ meals := by
  unfold filter_by_dietary_restrictions at hm
  split at hm
  · exact hm
  · exact (List.mem_filter.mp hm).1

/-- Every catalog entry, in every partition the lookup can return, has nonzero
calories (so the maintain-goal protein ratio never divides by zero). -/
theorem catalog_calories_ne (meal_type : String) :
    ∀ m ∈ dictGet meals_database meal_type [], m.calories ≠ 0 := by
  simp only [meals_database, dictGet]
  split_ifs <;> decide

/-- The activity multiplier read from the table is at least the default 1.2. -/
theorem activity_multiplier_ge {level : String} :
    (1.2 : ℚ) ≤ dictGet activity_multipliers level 1.2 := by
  simp only [activity_multipliers, dictGet]
  split_ifs <;> norm_num

/-- A profile the application form accepts has positive derived daily calories:
its BMR is at least 164 on the form bounds and the multiplier at least 1.2. -/
theorem daily_calories_pos {p : UserProfile} (hp : ValidProfile p) : 0 < p.daily_calories := by
  obtain ⟨h1, h2, h3, h4, h5, h6, hb, hd⟩ := hp
  have hbmr : 164 ≤ p.bmr := by
    rw [hb]
    unfold calculate_bmr
    split_ifs <;> linarith
  rw [hd]
  unfold calculate_daily_calories
  have hmul := @activity_multiplier_ge p.activity_level
  exact mul_pos (by linarith) (by linarith)

/-- The per-meal calorie target is positive for positive daily calories,
whatever the meal type resolves to in the target table. -/
theorem mealCalorieTarget_pos {daily : ℚ} (hd : 0 < daily) (meal_type : String) :
    0 < mealCalorieTarget daily meal_type := by
  unfold mealCalorieTarget
  simp only [dictGet]
  split_ifs <;> linarith

/-- Scoring one meal succeeds whenever the calorie target is nonzero and the
meal itself has nonzero calories. -/
theorem score_meal_isSome {goal : String} {target : ℚ} {r : ℕ} {meal : Meal}
    (ht : target ≠ 0) (hc : (meal.calories : ℚ) ≠ 0) :
    ∃ q, score_meal goal target r meal = some q := by
  unfold score_meal
  rw [show pydiv |(meal.calories : ℚ) - target| target =
      some (|(meal.calories : ℚ) - target| / target) by simp [pydiv, ht]]
  have hg : ∃ g, goalScore goal target meal = some g := by
    unfold goalScore
    split_ifs <;> try exact ⟨_, rfl⟩
    all_goals
      rw [show pydiv ((meal.protein : ℚ) * 4) (meal.calories : ℚ) =
          some ((meal.protein : ℚ) * 4 / (meal.calories : ℚ)) by simp [pydiv, hc]]
      exact ⟨_, rfl⟩
  obtain ⟨g, hgeq⟩ := hg
  rw [hgeq]
  exact ⟨_, rfl⟩

/-- Scoring a whole candidate list succeeds, preserving its length, whenever
the target is nonzero and every candidate has nonzero calories. -/
theorem score_meals_some {goal : String} {target : ℚ} (rng : ℕ → ℕ) (ht : target ≠ 0) :
    ∀ (meals : List Meal) (i : ℕ), (∀ m ∈ meals, (m.calories : ℚ) ≠ 0) →
      ∃ l, score_meals goal target rng meals i = some l ∧ l.length = meals.length := by
  intro meals
  induction meals with
  | nil => exact fun i _ => ⟨[], rfl, rfl⟩
  | cons meal rest ih =>
    intro i hall
    obtain ⟨q, hq⟩ := @score_meal_isSome goal target (rng i) meal ht
      (hall meal (List.mem_cons_self meal rest))
    obtain ⟨l, hl, hlen⟩ := ih (i + 1) (fun m hm => hall m (List.mem_cons_of_mem meal hm))
    refine ⟨⟨meal, q⟩ :: l, ?_, by simp [hlen]⟩
    simp only [score_meals, hq, hl, Option.bind, Option.map]

/-- C1: the dietary filter with an empty restriction list keeps the whole
partition, and for every profile the application can save, every meal type
whose catalog partition is non-empty, every positive requested count and every
random stream, get_recommendations returns a non-empty list (the over-restricted
filter falls back to the unfiltered partition). -/
theorem C1_recommendations_nonempty :
    (∀ meals : List Meal, filter_by_dietary_restrictions meals [] = meals) ∧
    ∀ (profile : UserProfile) (meal_type : String) (n : ℕ) (rng : ℕ → ℕ),
      ValidProfile profile → 0 < n → dictGet meals_database meal_type [] ≠ [] →
      get_recommendations profile meal_type n rng ≠ [] := by
  constructor
  · intro meals
    rfl
  · intro p mt n rng hp hn hne
    have hff : (dictGet meals_database mt []).isEmpty = false := by
      rwa [List.isEmpty_eq_false]
    unfold get_recommendations
    rw [if_neg (by simp [hff])]
    set A := dictGet meals_database mt [] with hA
    set F := filter_by_dietary_restrictions A p.dietary_restrictions with hF
    have hCne : (if F.isEmpty then A else F) ≠ [] := by
      split
      · exact hne
      · rename_i hFe
        rw [← List.isEmpty_eq_false]
        exact Bool.not_eq_true _ ▸ (by simpa using hFe)
    have hCcal : ∀ m ∈ (if F.isEmpty then A else F), (m.calories : ℚ) ≠ 0 := by
      intro m hm
      have hmA : m ∈ A := by
        by_cases hFe : F.isEmpty = true
        · rw [if_pos hFe] at hm
          exact hm
        · rw [if_neg hFe] at hm
          rw [hF] at hm
          exact filter_by_subset hm
      have := catalog_calories_ne mt m (hA ▸ hmA)
      exact Int.cast_ne_zero.mpr this
    have htar : mealCalorieTarget p.daily_calories mt ≠ 0 :=
      (mealCalorieTarget_pos (daily_calories_pos hp) mt).ne'
    obtain ⟨l, hl, hlen⟩ := score_meals_some rng htar (if F.isEmpty then A else F) 0 hCcal
    rw [hl]
    show ((l.insertionSort (fun a b => b.ai_score ≤ a.ai_score)).take n) ≠ []
    have hlpos : 0 < l.length := by
      rw [hlen]
      exact List.length_pos.mpr hCne
    intro hnil
    have htl : ((l.insertionSort (fun a b => b.ai_score ≤ a.ai_score)).take n).length = 0 := by
      rw [hnil]
      rfl
    rw [List.length_take,
      (List.perm_insertionSort (fun a b : ScoredMeal => b.ai_score ≤ a.ai_score) l).length_eq]
      at htl
    omega

/-- Witness for C1 on the sample profile, the Breakfast partition, the default
count 3 and a constant random stream. -/
theorem C1_witness :
    ValidProfile sampleProfile ∧ 0 < 3 ∧ dictGet meals_database "Breakfast" [] ≠ [] ∧
    get_recommendations sampleProfile "Breakfast" 3 (fun _ => 7) ≠ [] := by
  have hv : ValidProfile sampleProfile := by
    refine ⟨?_, ?_, ?_, ?_, ?_, ?_, rfl, rfl⟩ <;> norm_num [sampleProfile]
  have hne : dictGet meals_database "Breakfast" [] ≠ [] := by decide
  exact ⟨hv, by norm_num, hne,
    C1_recommendations_nonempty.2 sampleProfile "Breakfast" 3 (fun _ => 7) hv (by norm_num) hne⟩

/-- Witness for C6 on a single log with 10 g protein. -/
theorem C6_witness :
    ([sampleLog] : List MealLog) ≠ [] ∧
    (([sampleLog] : List MealLog).map (fun m => m.protein)).sum /
      (([sampleLog] : List MealLog).length : ℚ) < 15 ∧
    ∃ st, analyze_nutrition_patterns [sampleLog] = .stats st ∧ lowProteinMsg ∈ st.insights := by
  have h1 : ([sampleLog] : List MealLog) ≠ [] := by simp
  have h2 : (([sampleLog] : List MealLog).map (fun m => m.protein)).sum /
      (([sampleLog] : List MealLog).length : ℚ) < 15 := by
    norm_num [sampleLog]
  exact ⟨h1, h2, C6_nutrition_patterns.2 [sampleLog] h1 h2⟩
